import Mathlib

/-!
Verification of the BDD step definitions of insights-results-aggregator-cleaner
(`bdd_tests/features/steps/{cleaner,common,database}.py`) and of the cleaner
engine contract they exercise.

The database visible to a test run is modelled as an association list from
table names to row counts: a table absent from the list does not exist in the
schema, so probing it raises `UndefinedTable`; a present table carries the
number of rows `SELECT count(*)` would report.
-/

/-- A database schema snapshot: table name paired with its row count.
A table missing from the list is undefined (probing it raises
`UndefinedTable`). -/
def DB := List (String × Nat)

/-- Row count of table `t`, `none` when the table does not exist. -/
def DB.lookup (db : DB) (t : String) : Option Nat := List.lookup t db

/-- Exceptions observable in the Python step definitions. -/
inductive PyError where
  | undefinedTable (table : String)
  | typeError (msg : String)
  | assertionError (msg : String)
deriving DecidableEq, Repr

/-- `cursor.execute("SELECT 1 from t")`: succeeds exactly when the table
exists, raises `UndefinedTable` otherwise. -/
def probeTable (db : DB) (t : String) : Except PyError Unit :=
  match db.lookup t with
  | some _ => Except.ok ()
  | none => Except.error (PyError.undefinedTable t)

/-- `cursor.execute("SELECT count(*) as cnt from t")` followed by
`fetchone()`: the count when the table exists, `UndefinedTable` otherwise. -/
def countTable (db : DB) (t : String) : Except PyError Nat :=
  match db.lookup t with
  | some n => Except.ok n
  | none => Except.error (PyError.undefinedTable t)

/-- Result of one of the two `look_for_table` step implementations:
the value stored into `context.table_found` and whether
`context.connection.commit()` was invoked by the step. -/
structure LookResult where
  table_found : Bool
  committed : Bool
deriving DecidableEq, Repr

/-- `look_for_table` from `common.py`: try `SELECT 1 from t`; on success set
`context.table_found = True`, on `UndefinedTable` set it to `False`.
No commit is performed. -/
def common_look_for_table (db : DB) (t : String) : LookResult :=
  match probeTable db t with
  | Except.ok _ => { table_found := true, committed := false }
  | Except.error _ => { table_found := false, committed := false }

/-- `look_for_table` from `database.py`: identical try/except assignment to
`context.table_found`, followed unconditionally by
`context.connection.commit()`. -/
def database_look_for_table (db : DB) (t : String) : LookResult :=
  match probeTable db t with
  | Except.ok _ => { table_found := true, committed := true }
  | Except.error _ => { table_found := false, committed := true }

/-- The table tuple hard-coded in `ensure_database_emptiness`
(`database.py`, the step "the database is empty"). -/
def ensure_database_emptiness_tables : List String :=
  ["report",
   "cluster_rule_toggle",
   "cluster_rule_user_feedback",
   "cluster_user_rule_disable_feedback",
   "rule_hit"]

/-- The table tuple hard-coded in `ensure_data_tables_emptiness`
(`database.py`, the step "all tables are empty"). -/
def ensure_data_tables_emptiness_tables : List String :=
  ["report",
   "cluster_rule_toggle",
   "cluster_rule_user_feedback",
   "cluster_user_rule_disable_feedback",
   "rule_hit"]

/-- Body of the loop of `ensure_database_emptiness` for one table: probe the
table with `SELECT 1`; when the probe succeeds the step executes
`raise "Table ... exists"`, and in Python 3 raising a plain string raises
`TypeError: exceptions must derive from BaseException`, which the
`except UndefinedTable` clause does not catch, so it propagates; when the
probe raises `UndefinedTable` the handler rolls back and the loop proceeds. -/
def ensure_database_emptiness_step (db : DB) (t : String) : Except PyError Unit :=
  match probeTable db t with
  | Except.ok _ =>
      Except.error (PyError.typeError "exceptions must derive from BaseException")
  | Except.error _ => Except.ok ()

/-- The `for table in tables` loop of `ensure_database_emptiness`: the first
table whose body raises aborts the whole step. -/
def ensure_database_emptiness_loop (db : DB) : List String → Except PyError Unit
  | [] => Except.ok ()
  | t :: ts =>
    match ensure_database_emptiness_step db t with
    | Except.ok _ => ensure_database_emptiness_loop db ts
    | Except.error e => Except.error e

/-- `ensure_database_emptiness` (`database.py`): iterate the five known
tables in order; the first existing table aborts the step with the
propagated `TypeError`; the step completes normally only when every probe
raised `UndefinedTable`. -/
def ensure_database_emptiness (db : DB) : Except PyError Unit :=
  ensure_database_emptiness_loop db ensure_database_emptiness_tables

/-- Body of the loop of `ensure_data_tables_emptiness` for one table:
`SELECT count(*) as cnt` then `results["cnt"]`. The connection uses the
default `psycopg2` cursor, whose rows are plain tuples, so indexing the row
with the string key raises `TypeError`; when the table is undefined, the
`except UndefinedTable` handler re-raises the `UndefinedTable` error
(`raise e`), aborting the run. -/
def ensure_data_tables_emptiness_step (db : DB) (t : String) : Except PyError Unit :=
  match countTable db t with
  | Except.ok _ =>
      Except.error (PyError.typeError "tuple indices must be integers or slices, not str")
  | Except.error e => Except.error e

/-- The `for table in tables` loop of `ensure_data_tables_emptiness`: the
first table whose body raises aborts the whole step. -/
def ensure_data_tables_emptiness_loop (db : DB) : List String → Except PyError Unit
  | [] => Except.ok ()
  | t :: ts =>
    match ensure_data_tables_emptiness_step db t with
    | Except.ok _ => ensure_data_tables_emptiness_loop db ts
    | Except.error e => Except.error e

/-- `ensure_data_tables_emptiness` (`database.py`): iterate the five known
tables in order, aborting at the first error. -/
def ensure_data_tables_emptiness (db : DB) : Except PyError Unit :=
  ensure_data_tables_emptiness_loop db ensure_data_tables_emptiness_tables

/-! ## Step definitions from `cleaner.py` -/

/-- The return-code assertion inside `process_cleaner_output` (`cleaner.py`):
`assert out.returncode == 0 or out.returncode == return_code`, with
`return_code` the expected code passed by the caller. -/
def process_cleaner_output_rc_check (return_code returncode : Int) : Bool :=
  returncode == 0 || returncode == return_code

/-- Python `str.isspace` on the ASCII whitespace characters stripped by
`str.strip()`. -/
def pyIsSpace (c : Char) : Bool :=
  c = ' ' || c = '\t' || c = '\n' || c = '\r' || c = '\x0b' || c = '\x0c'

/-- Python `str.strip()`: remove leading and trailing whitespace. -/
def pyStrip (s : String) : String :=
  String.mk (((s.data.dropWhile pyIsSpace).reverse.dropWhile pyIsSpace).reverse)

/-- Python `str.replace("\t", "    ")`: each tab becomes four spaces. -/
def expandTabs (s : String) : String :=
  String.mk (s.data.foldr
    (fun c acc => if c = '\t' then ' ' :: ' ' :: ' ' :: ' ' :: acc else c :: acc) [])

/-- The `expected_output` literal of `check_help_from_cleaner` (`cleaner.py`),
byte for byte: a leading newline, then the usage block indented with spaces. -/
def expected_help_output : String :=
  String.intercalate "\n"
    ["",
     "Usage of insights-results-aggregator-cleaner:",
     "  -cleanup",
     "        perform database cleanup",
     "  -clusters string",
     "        list of clusters to cleanup",
     "  -fill-in-db",
     "        fill-in database by test data",
     "  -max-age string",
     "        max age for displaying old records",
     "  -output string",
     "        filename for old cluster listing",
     "  -summary",
     "        print summary table after cleanup",
     "  -version",
     "        show cleaner version"]

/-- `check_help_from_cleaner` (`cleaner.py`): decode stdout, replace each tab
with four spaces, then compare both sides after `strip()`. -/
def check_help_from_cleaner (stdout : String) : Bool :=
  pyStrip (expandTabs stdout) == pyStrip expected_help_output

/-- The exact line `check_version_from_cleaner` looks for. -/
def version_check_line : String :=
  "Insights Results Aggregator Cleaner version 1.0"

/-- `check_version_from_cleaner` (`cleaner.py`): `context.output` is the list
of lines of stdout (split on newline); the Python `in` operator on a list is
membership, so the assertion holds exactly when one whole line equals
`version_check_line`. -/
def check_version_from_cleaner (output : List String) : Bool :=
  output.contains version_check_line

/-- `check_empty_list_of_records` (`cleaner.py`): read the output file back
and assert the content is the empty string. -/
def check_empty_list_of_records (content : String) : Bool :=
  content == ""

/-! ## The cleaner engine, modelled from the specification

The cleaner binary itself (`insights-results-aggregator-cleaner`) is not part
of the step-definition sources, so its contract is modelled from the
specification it was written against. -/

/-- Modelled from the spec: a Record, a row of the primary tracked table
(unique identifier, owning cluster identifier, last-seen timestamp). -/
structure Record where
  id : String
  cluster : String
  lastSeen : Int
deriving DecidableEq, Repr

/-- Modelled from the spec: the Selector's predicate,
`last_seen < (now - threshold) AND (cluster_filter is empty OR cluster_id IN
cluster_filter)`, with "now" captured once per invocation. -/
def selectorMatches (now threshold : Int) (filter : Option (List String))
    (r : Record) : Bool :=
  decide (r.lastSeen < now - threshold) &&
    (match filter with
     | none => true
     | some clusters => clusters.contains r.cluster)

/-- Modelled from the spec: the records the Selector's predicate retains. -/
def selectOldRecords (now threshold : Int) (filter : Option (List String))
    (records : List Record) : List Record :=
  records.filter (selectorMatches now threshold filter)

/-- Modelled from the spec: the Lister writes the matching identifiers to the
output destination, one per line, and produces no output at all when the
result set is empty. -/
def listerOutput (records : List Record) : String :=
  String.join (records.map (fun r => r.id ++ "\n"))

/-- Modelled from the spec: the modes of the CLI orchestrator's state
machine; `listing` records whether the result set turned out empty. -/
inductive CleanerMode where
  | listing (resultEmpty : Bool)
  | cleaning
  | fillingTestData
  | showingVersion
  | showingHelp
deriving DecidableEq, Repr

/-- Modelled from the spec: the orchestrator's exit-code mapping — invalid or
unrecognized flags exit 2 via `showingHelp`; `-version` exits 0; listing
exits 0 even when the result is empty. -/
def orchestratorExitCode : CleanerMode → Int
  | CleanerMode.listing _ => 0
  | CleanerMode.cleaning => 0
  | CleanerMode.fillingTestData => 0
  | CleanerMode.showingVersion => 0
  | CleanerMode.showingHelp => 2

/-- Modelled from the spec: the stdout lines of a `-version` run — the
version string `"<Product Name> version <semver>"` followed by the empty
tail that splitting the trailing newline produces. -/
def versionOutputLines : List String :=
  ["Insights Results Aggregator Cleaner version 1.0", ""]

/-- Modelled from the spec: a failure of one query inside the cleanup
transaction. -/
inductive CleanupError where
  | queryFailed (table : String)
deriving DecidableEq, Repr

/-- Replace the row count of table `t` (used by the modelled deletion). -/
def DB.setCount (db : DB) (t : String) (n : Nat) : DB :=
  db.map (fun p => if p.1 = t then (p.1, n) else p)

/-- Modelled from the spec: the tables one cleanup pass deletes from —
every dependent table first, the primary table `report` last. -/
def cleanupTables : List String :=
  ["cluster_rule_toggle",
   "cluster_rule_user_feedback",
   "cluster_user_rule_disable_feedback",
   "rule_hit",
   "report"]

/-- A database connection as the spec's interface exposes it: the state the
rest of the world sees (`committed`) and the state inside the open
transaction (`working`). -/
structure Conn where
  committed : DB
  working : DB

/-- Modelled from the spec: one deletion step inside the transaction. A step
whose query fails aborts with `CleanupError`; an undefined table is skipped
(treated as zero matching rows); otherwise the step removes the matching
rows from the working state. `fail` says which table's query fails this run;
`toDelete` says how many rows of each table match the selector. -/
def Conn.execDelete (c : Conn) (fail : String → Bool) (toDelete : String → Nat)
    (t : String) : Except CleanupError Conn :=
  if fail t then Except.error (CleanupError.queryFailed t)
  else
    match c.working.lookup t with
    | none => Except.ok c
    | some n => Except.ok { c with working := c.working.setCount t (n - toDelete t) }

/-- `handle.commit()`: publish the working state. -/
def Conn.commit (c : Conn) : Conn :=
  { committed := c.working, working := c.working }

/-- `handle.rollback()`: discard the working state. -/
def Conn.rollback (c : Conn) : Conn :=
  { committed := c.committed, working := c.committed }

/-- Modelled from the spec: run the deletion steps of one cleanup pass in
order, stopping at the first failing query and reporting the connection as
it stood at that moment. -/
def runCleanupSteps (fail : String → Bool) (toDelete : String → Nat) :
    List String → Conn → Except (Conn × CleanupError) Conn
  | [], c => Except.ok c
  | t :: ts, c =>
    match c.execDelete fail toDelete t with
    | Except.ok c2 => runCleanupSteps fail toDelete ts c2
    | Except.error e => Except.error (c, e)

/-- Modelled from the spec: one Deleter run over database `db` — open a
transaction, run every deletion step, commit on success, roll the whole
transaction back on any failure and report the `CleanupError`. -/
def deleterRun (fail : String → Bool) (toDelete : String → Nat) (db : DB) :
    Conn × Option CleanupError :=
  match runCleanupSteps fail toDelete cleanupTables { committed := db, working := db } with
  | Except.ok c => (c.commit, none)
  | Except.error (c, e) => (c.rollback, some e)

/-! ## Helper lemmas -/

/-- The database-is-empty loop succeeds exactly when every inspected table is
undefined, and its only other outcome is the propagated `TypeError`. -/
theorem ensure_database_emptiness_loop_cases (db : DB) :
    ∀ ts : List String,
      (ensure_database_emptiness_loop db ts = Except.ok () ↔
        ∀ t ∈ ts, db.lookup t = none) ∧
      (ensure_database_emptiness_loop db ts = Except.ok () ∨
        ensure_database_emptiness_loop db ts =
          Except.error (PyError.typeError "exceptions must derive from BaseException")) := by
  intro ts
  induction ts with
  | nil => simp [ensure_database_emptiness_loop]
  | cons t ts ih =>
    cases h : db.lookup t with
    | none =>
      have hstep : ensure_database_emptiness_step db t = Except.ok () := by
        simp [ensure_database_emptiness_step, probeTable, h]
      have hcons : ensure_database_emptiness_loop db (t :: ts) =
          ensure_database_emptiness_loop db ts := by
        simp [ensure_database_emptiness_loop, hstep]
      constructor
      · rw [hcons]
        simp [List.forall_mem_cons, h, ih.1]
      · rcases ih.2 with hok | herr
        · exact Or.inl (by rw [hcons, hok])
        · exact Or.inr (by rw [hcons, herr])
    | some n =>
      simp [ensure_database_emptiness_loop, ensure_database_emptiness_step,
            probeTable, h]

/-- A deletion step never changes the committed state of the connection. -/
theorem Conn.execDelete_committed (c c2 : Conn) (fail : String → Bool)
    (toDelete : String → Nat) (t : String)
    (h : c.execDelete fail toDelete t = Except.ok c2) :
    c2.committed = c.committed := by
  unfold Conn.execDelete at h
  by_cases hf : fail t
  · simp [hf] at h
  · cases hl : c.working.lookup t <;> simp [hf, hl] at h <;> simp [← h]

/-- When the cleanup steps abort, the connection they report still carries
the committed state they started from. -/
theorem runCleanupSteps_error_committed (fail : String → Bool)
    (toDelete : String → Nat) :
    ∀ (ts : List String) (c c2 : Conn) (e : CleanupError),
      runCleanupSteps fail toDelete ts c = Except.error (c2, e) →
      c2.committed = c.committed := by
  intro ts
  induction ts with
  | nil => intro c c2 e h; simp [runCleanupSteps] at h
  | cons t ts ih =>
    intro c c2 e h
    unfold runCleanupSteps at h
    cases hstep : c.execDelete fail toDelete t with
    | ok c3 =>
      rw [hstep] at h
      have := ih c3 c2 e h
      rw [this, Conn.execDelete_committed c c3 fail toDelete t hstep]
    | error e2 =>
      rw [hstep] at h
      cases h
      rfl

/-! ## Claims -/

/-- C1: a listing run whose selector retains no record (no record older than
the threshold) writes exactly zero bytes to the output destination, and the
test-suite check `check_empty_list_of_records` accepts that content. -/
theorem lister_empty_result_zero_bytes (now threshold : Int) (records : List Record)
    (h : ∀ r ∈ records, now - threshold ≤ r.lastSeen) :
    listerOutput (selectOldRecords now threshold none records) = "" ∧
    (listerOutput (selectOldRecords now threshold none records)).length = 0 ∧
    check_empty_list_of_records
      (listerOutput (selectOldRecords now threshold none records)) = true := by
  have hsel : selectOldRecords now threshold none records = [] := by
    simp only [selectOldRecords, List.filter_eq_nil_iff]
    intro r hr
    have hge := h r hr
    simp [selectorMatches]
    omega
  rw [hsel]
  exact ⟨rfl, rfl, rfl⟩

/-- C1 witness: a concrete database whose single record is newer than the
cutoff. -/
theorem lister_empty_result_zero_bytes_witness :
    listerOutput (selectOldRecords 50 10 none
      [{ id := "abc", cluster := "c1", lastSeen := 100 }]) = "" ∧
    (listerOutput (selectOldRecords 50 10 none
      [{ id := "abc", cluster := "c1", lastSeen := 100 }])).length = 0 ∧
    check_empty_list_of_records (listerOutput (selectOldRecords 50 10 none
      [{ id := "abc", cluster := "c1", lastSeen := 100 }])) = true :=
  lister_empty_result_zero_bytes 50 10
    [{ id := "abc", cluster := "c1", lastSeen := 100 }] (by decide)

/-- C2 counterexample: the return-code assertion run for an invalid flag
also accepts the return code 0, so it does not accept exactly the value 2. -/
theorem rc_check_for_invalid_flag_accepts_zero :
    process_cleaner_output_rc_check 2 0 = true ∧ (0 : Int) ≠ 2 := by
  decide

/-- C2 amended: the return-code assertion run for an invalid flag accepts
exactly the return codes 0 and 2. -/
theorem rc_check_for_invalid_flag_accepts_zero_or_two :
    ∀ rc : Int, process_cleaner_output_rc_check 2 rc = true ↔ (rc = 0 ∨ rc = 2) := by
  intro rc
  simp [process_cleaner_output_rc_check, Bool.or_eq_true, beq_iff_eq]

/-- C3 counterexample: the all-tables-empty check re-raises `UndefinedTable`
(already at the first table when the whole schema is absent) instead of
treating the table as empty and proceeding. -/
theorem data_tables_check_aborts_on_undefined_table :
    ensure_data_tables_emptiness [] = Except.error (PyError.undefinedTable "report") ∧
    ensure_data_tables_emptiness [] ≠ Except.ok () := by
  refine ⟨rfl, ?_⟩
  intro h
  rw [show ensure_data_tables_emptiness [] =
        Except.error (PyError.undefinedTable "report") from rfl] at h
  exact Except.noConfusion h

/-- C3 amended: the two emptiness checks handle `UndefinedTable` differently.
In the database-is-empty check it is the expected, non-error outcome: the
handler swallows it and the loop proceeds, so the step completes normally
when every known table is undefined. In the all-tables-empty check the
handler re-raises it, aborting the run at the first undefined table. -/
theorem undefined_table_handling_in_emptiness_checks (db : DB)
    (h : ∀ t ∈ ensure_database_emptiness_tables, db.lookup t = none) :
    ensure_database_emptiness db = Except.ok () ∧
    ensure_data_tables_emptiness db = Except.error (PyError.undefinedTable "report") := by
  constructor
  · exact (ensure_database_emptiness_loop_cases db ensure_database_emptiness_tables).1.mpr h
  · have hr : db.lookup "report" = none := by
      exact h "report" (by simp [ensure_database_emptiness_tables])
    simp [ensure_data_tables_emptiness, ensure_data_tables_emptiness_tables,
          ensure_data_tables_emptiness_loop, ensure_data_tables_emptiness_step,
          countTable, hr]

/-- C3 amended witness: the fully empty schema. -/
theorem undefined_table_handling_in_emptiness_checks_witness :
    ensure_database_emptiness [] = Except.ok () ∧
    ensure_data_tables_emptiness [] = Except.error (PyError.undefinedTable "report") :=
  undefined_table_handling_in_emptiness_checks [] (by decide)

/-- C4: when any query of the single cleanup transaction fails, the whole
transaction is rolled back: the state the rest of the world sees after the
failed Deleter run carries exactly the original row count of every table. -/
theorem deleter_rollback_preserves_row_counts (fail : String → Bool)
    (toDelete : String → Nat) (db : DB) (c : Conn) (e : CleanupError)
    (h : deleterRun fail toDelete db = (c, some e)) :
    c.committed = db ∧ ∀ t, c.committed.lookup t = db.lookup t := by
  unfold deleterRun at h
  cases hrun : runCleanupSteps fail toDelete cleanupTables
      { committed := db, working := db } with
  | ok c2 =>
    rw [hrun] at h
    exact absurd (congrArg Prod.snd h) (by simp)
  | error p =>
    rw [hrun] at h
    obtain ⟨c2, e2⟩ := p
    have hc : c = Conn.rollback c2 := (congrArg Prod.fst h).symm
    have hcommitted : c2.committed = db :=
      runCleanupSteps_error_committed fail toDelete cleanupTables
        { committed := db, working := db } c2 e2 hrun
    have : c.committed = db := by rw [hc, Conn.rollback, hcommitted]
    exact ⟨this, fun t => by rw [this]⟩

/-- C4 witness: a run whose `rule_hit` query fails leaves both row counts
untouched. -/
theorem deleter_rollback_preserves_row_counts_witness :
    (deleterRun (fun t => t == "rule_hit") (fun _ => 1)
      [("report", 2), ("rule_hit", 3)]).1.committed = [("report", 2), ("rule_hit", 3)] ∧
    ∀ t, ((deleterRun (fun t => t == "rule_hit") (fun _ => 1)
      [("report", 2), ("rule_hit", 3)]).1).committed.lookup t =
        DB.lookup [("report", 2), ("rule_hit", 3)] t :=
  deleter_rollback_preserves_row_counts (fun t => t == "rule_hit") (fun _ => 1)
    [("report", 2), ("rule_hit", 3)] _ _ rfl

set_option maxRecDepth 8000

/-- C5 counterexample: the help check is not a character-for-character
comparison — it also accepts the documented usage block followed by a
trailing newline, a string different from the block itself. -/
theorem help_check_not_character_exact :
    check_help_from_cleaner (expected_help_output ++ "\n") = true ∧
    expected_help_output ++ "\n" ≠ expected_help_output := by
  constructor
  · decide
  · intro h
    have hlen := congrArg String.length h
    rw [String.length_append] at hlen
    have hone : ("\n").length = 1 := rfl
    omega

/-- C5 amended: the help check accepts exactly the stdout strings that equal
the documented usage block after normalization — every tab replaced by four
spaces and leading/trailing whitespace stripped from both sides; within that
normalization the comparison is exact (the usage block itself passes, any
string differing in its interior fails). -/
theorem help_check_accepts_normalized_usage :
    (∀ s : String, check_help_from_cleaner s = true ↔
      pyStrip (expandTabs s) = pyStrip expected_help_output) ∧
    check_help_from_cleaner expected_help_output = true ∧
    check_help_from_cleaner ("X" ++ expected_help_output) = false := by
  refine ⟨fun s => ?_, by decide, by decide⟩
  simp [check_help_from_cleaner, beq_iff_eq]

/-- C6: the version check accepts a run exactly when one whole stdout line is
the string "Insights Results Aggregator Cleaner version 1.0"; that string has
the form "<Product Name> version <semver>", and the modelled `-version` run
exits 0 and passes the check. -/
theorem version_check_accepts_exact_line :
    (∀ output : List String, check_version_from_cleaner output = true ↔
      version_check_line ∈ output) ∧
    version_check_line = "Insights Results Aggregator Cleaner" ++ " version " ++ "1.0" ∧
    orchestratorExitCode CleanerMode.showingVersion = 0 ∧
    check_version_from_cleaner versionOutputLines = true := by
  refine ⟨fun output => ?_, rfl, rfl, by decide⟩
  simp [check_version_from_cleaner, List.elem_iff]

/-- C7: the return-code assertion applied to listing-mode runs (expected
code 0) accepts exactly the value 0, and the modelled orchestrator exits 0
from listing mode whether or not the result set is empty. -/
theorem listing_rc_check_accepts_exactly_zero :
    (∀ rc : Int, process_cleaner_output_rc_check 0 rc = true ↔ rc = 0) ∧
    (∀ resultEmpty : Bool, orchestratorExitCode (CleanerMode.listing resultEmpty) = 0) := by
  constructor
  · intro rc
    simp [process_cleaner_output_rc_check, Bool.or_eq_true, beq_iff_eq]
  · intro resultEmpty
    rfl

/-- C8: both emptiness checks inspect exactly the five known tables —
`report` first, then the four dependent tables — the same list, in the same
order, with no table repeated. -/
theorem emptiness_checks_inspect_exactly_five_tables :
    ensure_database_emptiness_tables =
      ["report", "cluster_rule_toggle", "cluster_rule_user_feedback",
       "cluster_user_rule_disable_feedback", "rule_hit"] ∧
    ensure_data_tables_emptiness_tables = ensure_database_emptiness_tables ∧
    ensure_database_emptiness_tables.length = 5 ∧
    ensure_database_emptiness_tables.Nodup := by
  refine ⟨rfl, rfl, rfl, by decide⟩

/-- C9: the database-is-empty step completes normally exactly when every one
of the five known tables is undefined (each probing SELECT raises
`UndefinedTable`); its only other outcome is the propagated `TypeError` from
`raise "Table ... exists"`, a plain string being raised in Python 3 — so an
existing table can never be silently reported as absent. -/
theorem database_empty_check_ok_iff_all_tables_undefined (db : DB) :
    (ensure_database_emptiness db = Except.ok () ↔
      ∀ t ∈ ensure_database_emptiness_tables, db.lookup t = none) ∧
    (ensure_database_emptiness db = Except.ok () ∨
      ensure_database_emptiness db =
        Except.error (PyError.typeError "exceptions must derive from BaseException")) :=
  ensure_database_emptiness_loop_cases db ensure_database_emptiness_tables

/-- C10: the two `look_for_table` step implementations agree on the value
stored into `context.table_found` for every database and table — `true`
exactly when the probing SELECT succeeds — and differ only in that the
`database.py` variant additionally commits the connection. -/
theorem look_for_table_implementations_agree (db : DB) (t : String) :
    (common_look_for_table db t).table_found = (database_look_for_table db t).table_found ∧
    ((database_look_for_table db t).table_found = true ↔ probeTable db t = Except.ok ()) ∧
    (common_look_for_table db t).committed = false ∧
    (database_look_for_table db t).committed = true := by
  cases hp : probeTable db t with
  | ok v =>
    simp [common_look_for_table, database_look_for_table, hp]
  | error e =>
    simp [common_look_for_table, database_look_for_table, hp]
